import Mathlib

/-!
Shallow embedding of the playback-engine core of the Nodoka audiobook player:
the per-file/per-collection sidecar metadata (AudiobookFileProxy, AudiobookProxy),
the bounded proxy cache (ProxyManager), the duration-scan queue (Core.ScanPlayer)
and the interactive player wrapper (Core.ConcretePlayer).

Conventions of the embedding:
* QString file paths and record ids are opaque keys, modelled as natural numbers.
* `QSettings` sidecar documents are modelled by the fields the core reads and
  writes (`duration`, `currentTime`, `completeness`); a missing numeric value
  reads as `0` (`QVariant().toLongLong()`), matching the source.
* C++ `long long` values are modelled as unbounded `Int`; where the source
  narrows a value to a 32-bit `int` (the `std::accumulate` call seeded with the
  `int` literal `0`, and the `int totalProgress` accumulation), the narrowing
  conversion is modelled explicitly by `wrap32`.
* `double` arithmetic is idealised as exact rational arithmetic (`Rat`); the
  C library rounding function `round` (round half away from zero) is `cround`.
* Code whose behaviour is undefined (casting a NaN/infinite `double` to `int`
  after a division by zero) is modelled as `Option.none`.

The file is organised as definitions first, theorems second.
-/

/-- File paths / record keys are opaque identifiers. -/
abbrev PathKey := Nat

/-- Narrowing conversion of a C++ integer value to a signed 32-bit `int`
(two's complement wrap-around), as performed when a `long long` expression is
assigned to an `int` object. -/
def wrap32 (x : Int) : Int :=
  (x + 2 ^ 31) % 2 ^ 32 - 2 ^ 31

/-- C `round`: round half away from zero, as used by the source through
`round(...)` on `double` values. -/
def cround (q : Rat) : Int :=
  if 0 ≤ q then (q + 1 / 2).floor else -((-q + 1 / 2).floor)

/-- First-match association-list lookup, the model of `QHash::value` /
`QHash::contains` and of reading one per-key sidecar document. -/
def assocLookup {A B : Type} [DecidableEq A] : List (A × B) → A → Option B
  | [], _ => none
  | (a, b) :: rest, k => if a = k then some b else assocLookup rest k

namespace AudiobookFileProxy

/-- The slice of an `AudiobookFileProxy` object the core reads and writes:
its sidecar document (`duration`, `currentTime`, `completeness`) and the
parsed-media property (`MediaProperty`, null until the backend parses the
file).  `currentTime = none` models a sidecar with no `currentTime` entry
(`currentTimeNull`). -/
structure State where
  storedDuration : Int := 0
  mediaProp : Option Int := none
  currentTime : Option Int := none
  completeness : Rat := 0
deriving DecidableEq

/-- `AudiobookFileProxy::getMediaDuration` (AudiobookFileProxy.cpp:67-82):
return the sidecar `duration` when positive, else `-1` when no media property
is parsed, else the property's duration. -/
def getMediaDuration (s : State) : Int :=
  if 0 < s.storedDuration then s.storedDuration
  else
    match s.mediaProp with
    | none => -1
    | some d => d

/-- `AudiobookFileProxy::getCompleteness` (AudiobookFileProxy.cpp:206-208):
`(int)round(value("completeness").toDouble())`. -/
def getCompleteness (s : State) : Int :=
  cround s.completeness

/-- `AudiobookFileProxy::getCurrentTime` (AudiobookFileProxy.cpp:137-139):
a missing `currentTime` reads as `0`. -/
def getCurrentTime (s : State) : Int :=
  s.currentTime.getD 0

/-- `AudiobookFileProxy::saveCurrentTime` (AudiobookFileProxy.cpp:112-135):
always persist `currentTime`; when the duration is positive and the newly
computed percentage exceeds the previously stored one, persist the new
percentage as well (which then triggers the completeness cascade). -/
def saveCurrentTime (t : Int) (s : State) : State :=
  let duration := getMediaDuration s
  if 0 < duration then
    let oldCompleteness := getCompleteness s
    let calcCompleteness : Rat := (t : Rat) / (duration : Rat) * 100
    if (oldCompleteness : Rat) < calcCompleteness then
      { s with currentTime := some t, completeness := calcCompleteness }
    else
      { s with currentTime := some t }
  else
    { s with currentTime := some t }

/-- A file whose sidecar records a 600000 ms duration and no playback yet. -/
def c7File : State := { storedDuration := 600000 }

/-- An `audiobook_file` row as read through `QSqlRecord`: the fields
`hasNextFile` / `getNextFile` use (`position`, `audiobook_id`, `full_path`). -/
structure FileRecord where
  audiobookId : Int
  position : Int
  fullPath : PathKey
deriving DecidableEq

/-- The wrapper object returned by `getNextFile`: either built from a row
(record constructor, AudiobookFileProxy.cpp:12-27, which leaves `isNull`
false) or the empty proxy (default constructor, AudiobookFileProxy.cpp:29-32,
`isNull` true). -/
structure Proxy where
  record : Option FileRecord
  isNull : Bool
deriving DecidableEq

/-- `AudiobookFileProxy()` — the empty/null proxy. -/
def mkNullProxy : Proxy :=
  { record := none, isNull := true }

/-- `AudiobookFileProxy(record, setting)` — `isNull` is set to false (the
empty-path early return at line 20 reads `this->isNull;` and changes
nothing). -/
def mkProxy (r : FileRecord) : Proxy :=
  { record := some r, isNull := false }

/-- `AudiobookFileProxy::getNullState` (AudiobookFileProxy.cpp:38-40). -/
def getNullState (p : Proxy) : Bool :=
  p.isNull

/-- The row predicate of the query
`SELECT * FROM audiobook_file WHERE position=? AND audiobook_id=?`. -/
def matchesNext (position audiobookId : Int) (rec : FileRecord) : Bool :=
  rec.position == position && rec.audiobookId == audiobookId

/-- `AudiobookFileProxy::hasNextFile` (AudiobookFileProxy.cpp:145-169): true
iff the query for `position + 1` within the same `audiobook_id` returns a row.
The relational store is an external collaborator, modelled as the list of its
`audiobook_file` rows; queries always succeed. -/
def hasNextFile (db : List FileRecord) (r : FileRecord) : Bool :=
  db.any (matchesNext (r.position + 1) r.audiobookId)

/-- `AudiobookFileProxy::getNextFile` (AudiobookFileProxy.cpp:171-200): the
empty proxy when there is no next row, else a proxy over the first row the
query returns. -/
def getNextFile (db : List FileRecord) (r : FileRecord) : Proxy :=
  if hasNextFile db r then
    match db.find? (matchesNext (r.position + 1) r.audiobookId) with
    | some rec => mkProxy rec
    | none => mkNullProxy
  else
    mkNullProxy

/-- A two-file collection (audiobook id 1, positions 1 and 2). -/
def c8Db : List FileRecord :=
  [{ audiobookId := 1, position := 1, fullPath := 10 },
   { audiobookId := 1, position := 2, fullPath := 11 }]

/-- The last record of collection 1. -/
def c8Last : FileRecord :=
  { audiobookId := 1, position := 2, fullPath := 11 }

end AudiobookFileProxy

namespace AudiobookProxy

/-- The slice of an `AudiobookProxy` (collection) object the aggregation
cascade reads and writes: the cached child file proxies (`fileListCache`) and
the collection sidecar fields `duration` and `completeness`. -/
structure State where
  files : List AudiobookFileProxy.State
  duration : Int := 0
  completeness : Int := 0
deriving DecidableEq

/-- The `durationList` built by `AudiobookProxy::updateTotalDuration`
(AudiobookProxy.cpp:238-249): the strictly positive child media durations. -/
def durationList (s : State) : List Int :=
  s.files.filterMap fun f =>
    let d := AudiobookFileProxy.getMediaDuration f
    if 0 < d then some d else none

/-- `std::accumulate(durationList->begin(), durationList->end(), 0)`
(AudiobookProxy.cpp:251): the initial value is the `int` literal `0`, so the
accumulator has type `int` and every partial sum — although computed in
`long long` — is narrowed back to 32 bits when stored in the accumulator. -/
def accumulateInt (l : List Int) : Int :=
  l.foldl (fun acc d => wrap32 (acc + d)) 0

/-- `AudiobookProxy::updateTotalDuration` (AudiobookProxy.cpp:236-255):
recompute the collection sidecar `duration` from the positive child durations. -/
def updateTotalDuration (s : State) : State :=
  { s with duration := accumulateInt (durationList s) }

/-- The `totalProgress` loop of `AudiobookProxy::updateCompletionStatus`
(AudiobookProxy.cpp:259-264): `totalProgress` is declared `auto = 0`, hence an
`int`, while `getCurrentTime()` returns `long long`; each `+=` narrows the
partial sum back to 32 bits. -/
def totalProgress (s : State) : Int :=
  s.files.foldl (fun acc f => wrap32 (acc + AudiobookFileProxy.getCurrentTime f)) 0

/-- `AudiobookProxy::updateCompletionStatus` (AudiobookProxy.cpp:257-270):
divide the summed child progress by the stored collection duration
(`getDuration()`) and store the rounded percentage.  The division carries no
zero guard: with `getDuration() == 0` the `double` division produces NaN or an
infinity and the subsequent `(int)round(...)` cast is undefined behaviour,
modelled as `none`. -/
def updateCompletionStatus (s : State) : Option State :=
  if s.duration = 0 then none
  else some { s with completeness := cround ((totalProgress s : Rat) / (s.duration : Rat) * 100) }

/-- Three children of 1073741824 ms (2^30 ms) each, all scanned. -/
def c2Files : List AudiobookFileProxy.State :=
  [{ storedDuration := 1073741824 }, { storedDuration := 1073741824 },
   { storedDuration := 1073741824 }]

/-- A collection whose sidecar `duration` is 0 (no child scanned yet), with one
child that has 10 ms of recorded progress and stored completeness 0. -/
def c3State : State := { files := [{ currentTime := some 10 }], duration := 0 }

end AudiobookProxy

namespace ProxyManager

/-- Cache keys: the audiobook sub-cache is keyed by the record `id`, the file
sub-cache by `full_path`; both are opaque keys here. -/
abbrev Key := Nat

/-- `static const int CACHE_SIZE_MAX = 1000` (ProxyManager.cpp:9). -/
def CACHE_SIZE_MAX : Nat := 1000

/-- The two sub-caches of `ProxyManager` (`loadedAudiobooks` for collection
proxies, `abFileCache` for file proxies).  A cache entry maps a key to the
identity of the live wrapper instance it holds; `nextId` numbers wrapper
constructions, so two constructions never yield the same identity. -/
structure State where
  loadedAudiobooks : List (Key × Nat) := []
  abFileCache : List (Key × Nat) := []
  nextId : Nat := 0
deriving DecidableEq

/-- `ProxyManager::getAudiobookProxy` (ProxyManager.cpp:16-27): return the
cached instance when present, else construct, insert and return a fresh one.
No size check and no clearing on this sub-cache. -/
def getAudiobookProxy (k : Key) (s : State) : Nat × State :=
  match assocLookup s.loadedAudiobooks k with
  | some v => (v, s)
  | none =>
      (s.nextId,
        { s with loadedAudiobooks := (k, s.nextId) :: s.loadedAudiobooks,
                 nextId := s.nextId + 1 })

/-- `ProxyManager::clearCache` (ProxyManager.cpp:47-49): clears only the
file-proxy sub-cache. -/
def clearCache (s : State) : State :=
  { s with abFileCache := [] }

/-- `ProxyManager::getAudiobookFileProxy` (ProxyManager.cpp:29-45): on a cache
miss, first clear the whole file sub-cache when its size exceeds
`CACHE_SIZE_MAX`, then construct, insert and return a fresh instance. -/
def getAudiobookFileProxy (k : Key) (s : State) : Nat × State :=
  match assocLookup s.abFileCache k with
  | some v => (v, s)
  | none =>
      let s1 := if CACHE_SIZE_MAX < s.abFileCache.length then clearCache s else s
      (s1.nextId,
        { s1 with abFileCache := (k, s1.nextId) :: s1.abFileCache,
                  nextId := s1.nextId + 1 })

/-- Inserting the keys `0, …, n-1` in order into the empty manager through
`getAudiobookFileProxy`. -/
def insertFileKeys (n : Nat) (s : State) : State :=
  (List.range n).foldl (fun st k => (getAudiobookFileProxy k st).2) s

/-- The file sub-cache contents after inserting keys `0, …, n-1` in order:
most recent first, each key bound to the instance constructed for it. -/
def rangeCache (n : Nat) : List (Key × Nat) :=
  (List.range n).reverse.map fun i => (i, i)

/-- The commands that touch the two proxy sub-caches during a run. -/
inductive Op
  | getAb (k : Key)
  | getFile (k : Key)
  | clear
deriving DecidableEq

/-- One command against the manager, discarding the returned proxy. -/
def step (s : State) (op : Op) : State :=
  match op with
  | .getAb k => (getAudiobookProxy k s).2
  | .getFile k => (getAudiobookFileProxy k s).2
  | .clear => clearCache s

/-- A whole run of manager commands. -/
def run (ops : List Op) (s : State) : State :=
  ops.foldl step s

end ProxyManager

/-- A manager state holding exactly 1001 file-proxy entries (keys `0, …, 1000`,
instance ids `0, …, 1000`), as produced by 1001 distinct insertions. -/
def c4State : ProxyManager.State :=
  { abFileCache := ProxyManager.rangeCache (ProxyManager.CACHE_SIZE_MAX + 1),
    nextId := ProxyManager.CACHE_SIZE_MAX + 1 }

/-- A manager holding the collection proxy instance 0 for collection id 7. -/
def c9State : ProxyManager.State :=
  { loadedAudiobooks := [(7, 0)], nextId := 1 }

/-- A run that clears the file cache, misses on file key 5 and constructs the
collection proxy for id 3. -/
def c9Ops : List ProxyManager.Op :=
  [ProxyManager.Op.clear, ProxyManager.Op.getFile 5, ProxyManager.Op.getAb 3]

namespace Core.ScanPlayer

/-- What the scanning engine reports for one queue entry: the `QFile` fails to
open (ScanPlayer.cpp:74), `libvlc_media_new_fd` returns null
(ScanPlayer.cpp:80), or the media reaches the Playing state and
`libvlc_media_get_duration` returns the given value (`-1` when the backend
cannot produce a duration). -/
inductive ProbeResult
  | openFail
  | mediaNull
  | playing (duration : Int)
deriving DecidableEq

/-- The scan player's observable state: the FIFO `fileQueue` (entries by file
path), the per-file sidecar `duration` documents written through
`setMediaDuration`, whether the queue `mutex` is held, and the two diagnostic
streams (the `QFILE FAILED!` debug line and the `performScan() failed for`
warning), each recorded as the list of paths reported. -/
structure ScanState where
  fileQueue : List PathKey := []
  sidecar : List (PathKey × Int) := []
  mutexLocked : Bool := false
  qfileFailedLog : List PathKey := []
  scanFailedLog : List PathKey := []
deriving DecidableEq

/-- Reading a sidecar `duration`: a missing entry reads as 0
(`QVariant().toLongLong()`). -/
def storedDuration (sidecar : List (PathKey × Int)) (p : PathKey) : Int :=
  (assocLookup sidecar p).getD 0

/-- `AudiobookFileProxy::getMediaDuration` for a queued proxy, whose
`MediaProperty` is still the null object: the sidecar value when positive,
else -1. -/
def getMediaDurationAt (sidecar : List (PathKey × Int)) (p : PathKey) : Int :=
  let d := storedDuration sidecar p
  if 0 < d then d else -1

/-- `AudiobookFileProxy::setMediaDuration`: persist (and sync) the sidecar
`duration` of `p`. -/
def setMediaDuration (sidecar : List (PathKey × Int)) (p : PathKey) (v : Int) :
    List (PathKey × Int) :=
  (p, v) :: sidecar

/-- `Core::ScanPlayer::addAudiobook` (ScanPlayer.cpp:29-39): push **every**
entry of `getFilesForAudiobook()` onto the queue under the mutex, then start
the scan task.  (The child list is passed by path; no duration filter is
applied.) -/
def addAudiobook (fileList : List PathKey) (s : ScanState) : ScanState :=
  { s with fileQueue := s.fileQueue ++ fileList }

/-- `Core::ScanPlayer::addAudiobookFile` (ScanPlayer.cpp:41-52): early return
when the file's media duration is already positive, else push the single
entry under the mutex and start the scan task. -/
def addAudiobookFile (p : PathKey) (s : ScanState) : ScanState :=
  if 0 < getMediaDurationAt s.sidecar p then s
  else { s with fileQueue := s.fileQueue ++ [p] }

/-- The `while(!this->fileQueue.empty())` loop of
`Core::ScanPlayer::performScan` (ScanPlayer.cpp:65-120), processing the queue
front-first with the mutex held:
* `QFile::open` failure (lines 74-77): log `QFILE FAILED!` and **return** —
  the entry is not popped and the mutex is not unlocked;
* null media item (lines 80-82): **return**, again without popping or
  unlocking;
* once the media plays (lines 89-112), read `libvlc_media_get_duration`; the
  branch at line 98 persists the duration only when it equals `-1` and
  otherwise logs the `performScan() failed for` warning; the engine is
  stopped, the entry is popped (line 119) and the loop continues.
The mutex is unlocked only when the loop drains the queue (line 122). -/
def scanLoop (env : PathKey → ProbeResult) : List PathKey → ScanState → ScanState
  | [], s => { s with fileQueue := [], mutexLocked := false }
  | p :: rest, s =>
    match env p with
    | .openFail =>
        { s with fileQueue := p :: rest, qfileFailedLog := s.qfileFailedLog ++ [p] }
    | .mediaNull =>
        { s with fileQueue := p :: rest }
    | .playing d =>
        if d = -1 then
          scanLoop env rest
            { s with fileQueue := rest, sidecar := setMediaDuration s.sidecar p d }
        else
          scanLoop env rest
            { s with fileQueue := rest, scanFailedLog := s.scanFailedLog ++ [p] }

/-- `Core::ScanPlayer::performScan` (ScanPlayer.cpp:60-125): take the mutex
and run the drain loop. -/
def performScan (env : PathKey → ProbeResult) (s : ScanState) : ScanState :=
  scanLoop env s.fileQueue { s with mutexLocked := true }

/-- Every probe in this run reaches Playing and reports 5000 ms. -/
def c1Env : PathKey → ProbeResult := fun _ => .playing 5000

/-- One queued entry (path 0), never scanned before. -/
def c1State : ScanState := { fileQueue := [0] }

/-- Every probe in this run fails to open the file. -/
def c6Env : PathKey → ProbeResult := fun _ => .openFail

/-- Two queued entries (paths 0 and 1). -/
def c6State : ScanState := { fileQueue := [0, 1] }

/-- A file already scanned: sidecar duration 5000 ms. -/
def c5State : ScanState := { sidecar := [(0, 5000)] }

end Core.ScanPlayer

namespace Core.ConcretePlayer

/-- Calls the player issues to the libvlc backend. -/
inductive Effect
  | mediaRelease
  | setMedia (p : PathKey)
  | playCalled
deriving DecidableEq

/-- The interactive player's own state: the `mediaLoaded` flag, the loaded
media item and its path, and the `autoPlay` flag.  Backend calls are recorded
as effects. -/
structure State where
  mediaLoaded : Bool := false
  currentPath : Option PathKey := none
  mediaItem : Option PathKey := none
  autoPlay : Bool := false
deriving DecidableEq

/-- `Core::ConcretePlayer::play` (ConcretePlayer.cpp:71-76): start playback
and set `autoPlay` when a media item is loaded, else do nothing. -/
def play (s : State) : State × List Effect :=
  if s.mediaLoaded then ({ s with autoPlay := true }, [Effect.playCalled])
  else (s, [])

/-- `Core::ConcretePlayer::releaseMedia` (ConcretePlayer.cpp:62-69): clear the
`mediaLoaded` flag first, then test it — the test can no longer succeed, so
`libvlc_media_release` is never called. -/
def releaseMedia (s : State) : State × List Effect :=
  let s1 := { s with mediaLoaded := false }
  if s1.mediaLoaded then (s1, [Effect.mediaRelease]) else (s1, [])

/-- `Core::ConcretePlayer::loadMedia` (ConcretePlayer.cpp:36-60): refuse when
a media item is already loaded; else create and set the media for the record's
path, mark `mediaLoaded`, and auto-start playback when `autoPlay` is set. -/
def loadMedia (p : PathKey) (s : State) : State × List Effect :=
  if s.mediaLoaded then (s, [])
  else
    let s1 := { s with currentPath := some p, mediaItem := some p, mediaLoaded := true }
    if s1.autoPlay then
      ((play s1).1, Effect.setMedia p :: (play s1).2)
    else
      (s1, [Effect.setMedia p])

end Core.ConcretePlayer

/-! ## Theorems -/

theorem rat_floor_eq_intFloor (q : Rat) : q.floor = ⌊q⌋ :=
  (Rat.floor_def' q).trans Rat.floor_def.symm

theorem le_cround_of_int_lt (n : Int) (q : Rat) (h : (n : Rat) < q) : n ≤ cround q := by
  unfold cround
  split_ifs with h0
  · rw [rat_floor_eq_intFloor, Int.le_floor]
    have : (n : Rat) ≤ q := le_of_lt h
    linarith
  · rw [rat_floor_eq_intFloor, le_neg]
    have hfl : ⌊-q + 1 / 2⌋ < -n + 1 := by
      rw [Int.floor_lt]
      push_cast
      linarith
    omega

namespace AudiobookFileProxy

theorem getCompleteness_le_saveCurrentTime (t : Int) (s : State) :
    getCompleteness s ≤ getCompleteness (saveCurrentTime t s) := by
  simp only [saveCurrentTime]
  split_ifs with h1 h2
  · exact le_cround_of_int_lt _ _ h2
  · exact le_refl _
  · exact le_refl _

/-- C7: for a file with a fixed positive duration, applying `saveCurrentTime t1`
and then `saveCurrentTime t2` with `t2 ≥ t1` never decreases the completeness
read back by `getCompleteness`; the stored completeness is monotonically
non-decreasing across `saveCurrentTime` calls (the new percentage is persisted
only when it strictly exceeds the previously read one). -/
theorem saveCurrentTime_completeness_monotone (s : State) (t1 t2 : Int)
    (hdur : 0 < s.storedDuration) (h12 : t1 ≤ t2) :
    getCompleteness (saveCurrentTime t1 s)
      ≤ getCompleteness (saveCurrentTime t2 (saveCurrentTime t1 s)) :=
  getCompleteness_le_saveCurrentTime t2 (saveCurrentTime t1 s)

/-- Witness for C7: the monotonicity theorem applied at duration 600000 ms,
`t1 = 150000`, `t2 = 300000`. -/
theorem saveCurrentTime_completeness_monotone_witness :
    0 < c7File.storedDuration ∧ (150000 : Int) ≤ 300000 ∧
    getCompleteness (saveCurrentTime 150000 c7File)
      ≤ getCompleteness (saveCurrentTime 300000 (saveCurrentTime 150000 c7File)) :=
  ⟨by decide, by decide,
    saveCurrentTime_completeness_monotone c7File 150000 300000 (by decide) (by decide)⟩

/-- C8: `hasNextFile` returns true iff some row has the same `audiobook_id`
and `position` exactly one greater than the current record's; on the last
record of a collection (no such row) `getNextFile` returns the empty/null
proxy, whose null state is true. -/
theorem hasNextFile_iff_next_row (db : List FileRecord) (r : FileRecord) :
    (hasNextFile db r = true ↔
      ∃ rec ∈ db, rec.position = r.position + 1 ∧ rec.audiobookId = r.audiobookId) ∧
    ((¬ ∃ rec ∈ db, rec.position = r.position + 1 ∧ rec.audiobookId = r.audiobookId) →
      getNullState (getNextFile db r) = true) := by
  have hiff : hasNextFile db r = true ↔
      ∃ rec ∈ db, rec.position = r.position + 1 ∧ rec.audiobookId = r.audiobookId := by
    simp [hasNextFile, matchesNext, List.any_eq_true]
  refine ⟨hiff, fun hnone => ?_⟩
  have hfalse : hasNextFile db r = false := by
    rcases Bool.eq_false_or_eq_true (hasNextFile db r) with h | h
    · exact absurd (hiff.mp h) hnone
    · exact h
  simp [getNextFile, hfalse, mkNullProxy, getNullState]

/-- Witness for C8: on the last record of the two-file collection there is no
row at position 3, and `getNextFile` returns a proxy whose null state is
true. -/
theorem hasNextFile_iff_next_row_witness :
    (¬ ∃ rec ∈ c8Db, rec.position = c8Last.position + 1 ∧
        rec.audiobookId = c8Last.audiobookId) ∧
    getNullState (getNextFile c8Db c8Last) = true :=
  ⟨by decide, (hasNextFile_iff_next_row c8Db c8Last).2 (by decide)⟩

end AudiobookFileProxy

namespace AudiobookProxy

/-- C2 (code bug evidence): for a collection whose three children each have a
persisted duration of 2^30 ms, `updateTotalDuration` stores -1073741824 — the
`int`-accumulated `std::accumulate` wraps at 32 bits — while the sum of the
(non-negative) child durations is 3221225472, so the stored totalDuration is
not the sum of the child durations. -/
theorem updateTotalDuration_int_accumulator_wraps :
    (updateTotalDuration { files := c2Files }).duration = -1073741824 ∧
    (c2Files.map AudiobookFileProxy.getMediaDuration).sum = 3221225472 ∧
    ((3221225472 : Int)) ≠ -1073741824 := by decide

/-- C3 counterexample: the claim says that with `totalDuration == 0` the
recomputation is a no-op leaving stored completeness at 0 and that the division
is never performed with a zero divisor; on `c3State` (totalDuration 0,
completeness 0) the code instead executes the `double` division with divisor 0
and casts the result to `int` — undefined behaviour, modelled as `none` — so
the recomputation is not the claimed no-op. -/
theorem updateCompletionStatus_zero_guard_counterexample :
    updateCompletionStatus c3State ≠ some c3State := by decide

/-- C3 amended: `updateCompletionStatus` has no guard on `totalDuration == 0`:
whenever the stored collection duration is 0 the division is performed with a
zero divisor and the result stored through `(int)round(...)` is undefined
(modelled as `none`); the recomputation is not a no-op that leaves the stored
completeness at 0. -/
theorem updateCompletionStatus_unguarded (s : State) (h : s.duration = 0) :
    updateCompletionStatus s = none := by
  simp [updateCompletionStatus, h]

/-- Witness for the amended C3 at `c3State`. -/
theorem updateCompletionStatus_unguarded_witness :
    c3State.duration = 0 ∧ updateCompletionStatus c3State = none :=
  ⟨by decide, updateCompletionStatus_unguarded c3State (by decide)⟩

end AudiobookProxy

namespace ProxyManager

theorem rangeCache_succ (n : Nat) : rangeCache (n + 1) = (n, n) :: rangeCache n := by
  unfold rangeCache
  rw [List.range_succ, List.reverse_append]
  simp

theorem length_rangeCache (n : Nat) : (rangeCache n).length = n := by
  unfold rangeCache
  simp

theorem assocLookup_rangeCache (n k : Nat) :
    assocLookup (rangeCache n) k = if k < n then some k else none := by
  induction n with
  | zero => simp [rangeCache, assocLookup]
  | succ n ih =>
    rw [rangeCache_succ]
    by_cases h : n = k
    · subst h
      simp [assocLookup, Nat.lt_succ_iff]
    · have : k < n + 1 ↔ k < n := by omega
      simp [assocLookup, h, ih, this]

theorem insertFileKeys_eq :
    ∀ n : Nat, n ≤ CACHE_SIZE_MAX + 1 →
      insertFileKeys n {} = { abFileCache := rangeCache n, nextId := n } := by
  intro n
  induction n with
  | zero => intro h; rfl
  | succ n ih =>
    intro h
    have hn : n ≤ CACHE_SIZE_MAX + 1 := Nat.le_of_succ_le h
    have hlt : ¬ (CACHE_SIZE_MAX < n) := by
      unfold CACHE_SIZE_MAX at h ⊢
      omega
    have hstep := ih hn
    unfold insertFileKeys at hstep ⊢
    rw [List.range_succ, List.foldl_append, hstep]
    simp only [List.foldl_cons, List.foldl_nil]
    simp [getAudiobookFileProxy, assocLookup_rangeCache, length_rangeCache, hlt,
      rangeCache_succ]

theorem step_preserves_audiobooks (s : State) (op : Op) (k : Key) (v : Nat)
    (h : assocLookup s.loadedAudiobooks k = some v) :
    assocLookup (step s op).loadedAudiobooks k = some v ∧
    s.loadedAudiobooks.length ≤ (step s op).loadedAudiobooks.length := by
  cases op with
  | getAb k2 =>
    cases hl : assocLookup s.loadedAudiobooks k2 with
    | some v2 => simp [step, getAudiobookProxy, hl, h]
    | none =>
      have hne : k2 ≠ k := by
        intro he
        rw [he, h] at hl
        cases hl
      simp [step, getAudiobookProxy, hl, assocLookup, hne, h, Nat.le_succ]
  | getFile k2 =>
    cases hl : assocLookup s.abFileCache k2 with
    | some v2 => simp [step, getAudiobookFileProxy, hl, h]
    | none =>
      by_cases hc : CACHE_SIZE_MAX < s.abFileCache.length <;>
        simp [step, getAudiobookFileProxy, hl, hc, clearCache, h]
  | clear => simp [step, clearCache, h]

theorem run_preserves_audiobooks (ops : List Op) :
    ∀ (s : State) (k : Key) (v : Nat),
      assocLookup s.loadedAudiobooks k = some v →
      assocLookup (run ops s).loadedAudiobooks k = some v ∧
      s.loadedAudiobooks.length ≤ (run ops s).loadedAudiobooks.length := by
  induction ops with
  | nil => intro s k v h; exact ⟨h, le_refl _⟩
  | cons op rest ih =>
    intro s k v h
    have hstep := step_preserves_audiobooks s op k v h
    have hrest := ih (step s op) k v hstep.1
    exact ⟨hrest.1, le_trans hstep.2 hrest.2⟩

end ProxyManager

/-- C4 counterexample: insert 1001 distinct keys (`0, …, 1000`) into the empty
manager; the claim says the 1001st insert clears all prior entries before
inserting, so afterwards only the new entry would remain and a lookup of key 0
would construct a fresh instance.  In the code the clear fires only when the
size already *exceeds* 1000, so after the 1001st insert all 1001 entries are
present and the lookup of key 0 still returns the original instance 0 — the
pre-clear instance, not a fresh one. -/
theorem getAudiobookFileProxy_1001st_no_clear :
    (ProxyManager.insertFileKeys 1001 {}).abFileCache.length = 1001 ∧
    (ProxyManager.getAudiobookFileProxy 0 (ProxyManager.insertFileKeys 1001 {})).1 = 0 := by
  have h := ProxyManager.insertFileKeys_eq 1001 (by decide)
  rw [h]
  constructor
  · simp [ProxyManager.length_rangeCache]
  · simp [ProxyManager.getAudiobookFileProxy, ProxyManager.assocLookup_rangeCache]

/-- C4 amended: the full clear happens on the insert that finds the file cache
*above* the ceiling, i.e. on the 1002nd distinct key: with 1001 entries cached,
a miss on key `k` clears everything and leaves only `(k, fresh)`; any key
inserted before that clear is then reconstructed freshly on its next lookup
(its new instance differs from the pre-clear one).  Lookups of distinct new
keys are always misses followed by fresh construction. -/
theorem getAudiobookFileProxy_clear_on_1002nd (s : ProxyManager.State)
    (k kPrev : ProxyManager.Key) (vPrev : Nat)
    (hmiss : assocLookup s.abFileCache k = none)
    (hlen : s.abFileCache.length = ProxyManager.CACHE_SIZE_MAX + 1)
    (hprev : assocLookup s.abFileCache kPrev = some vPrev)
    (hfresh : vPrev < s.nextId) :
    (ProxyManager.getAudiobookFileProxy k s).1 = s.nextId ∧
    (ProxyManager.getAudiobookFileProxy k s).2.abFileCache = [(k, s.nextId)] ∧
    (ProxyManager.getAudiobookFileProxy kPrev
        (ProxyManager.getAudiobookFileProxy k s).2).1 = s.nextId + 1 ∧
    (ProxyManager.getAudiobookFileProxy kPrev
        (ProxyManager.getAudiobookFileProxy k s).2).1 ≠ vPrev := by
  have hne : k ≠ kPrev := by
    intro he
    rw [he, hprev] at hmiss
    cases hmiss
  have hover : ProxyManager.CACHE_SIZE_MAX < s.abFileCache.length := by
    rw [hlen]
    omega
  have hfirst : ProxyManager.getAudiobookFileProxy k s =
      (s.nextId,
        { loadedAudiobooks := s.loadedAudiobooks,
          abFileCache := [(k, s.nextId)], nextId := s.nextId + 1 }) := by
    simp [ProxyManager.getAudiobookFileProxy, hmiss, hover, ProxyManager.clearCache]
  have hsmall : ¬ (ProxyManager.CACHE_SIZE_MAX < 1) := by decide
  refine ⟨by rw [hfirst], by rw [hfirst], ?_, ?_⟩
  · rw [hfirst]
    simp [ProxyManager.getAudiobookFileProxy, assocLookup, hne, hsmall]
  · rw [hfirst]
    simp [ProxyManager.getAudiobookFileProxy, assocLookup, hne, hsmall]
    omega

/-- Witness for the amended C4: on `c4State` the 1002nd distinct key (2000)
misses, clears the 1001 cached entries and is inserted with the fresh instance
1001; key 0, inserted before the clear, is then reconstructed as instance
1002 ≠ 0. -/
theorem getAudiobookFileProxy_clear_on_1002nd_witness :
    (ProxyManager.getAudiobookFileProxy 2000 c4State).1 = 1001 ∧
    (ProxyManager.getAudiobookFileProxy 2000 c4State).2.abFileCache = [(2000, 1001)] ∧
    (ProxyManager.getAudiobookFileProxy 0
        (ProxyManager.getAudiobookFileProxy 2000 c4State).2).1 = 1002 ∧
    (ProxyManager.getAudiobookFileProxy 0
        (ProxyManager.getAudiobookFileProxy 2000 c4State).2).1 ≠ 0 :=
  getAudiobookFileProxy_clear_on_1002nd c4State 2000 0 0
    (by simp [c4State, ProxyManager.assocLookup_rangeCache, ProxyManager.CACHE_SIZE_MAX])
    (by simp [c4State, ProxyManager.length_rangeCache])
    (by simp [c4State, ProxyManager.assocLookup_rangeCache, ProxyManager.CACHE_SIZE_MAX])
    (by decide)

/-- C9: the collection-level sub-cache (`loadedAudiobooks`) is unbounded and
never cleared: under any sequence of manager commands (collection lookups,
file lookups, `clearCache`), an id once bound to a wrapper instance stays
bound to that same instance, the sub-cache's size never decreases, and a later
`getAudiobookProxy` lookup returns the identical instance first constructed
for that id. -/
theorem audiobook_cache_never_cleared (ops : List ProxyManager.Op)
    (s : ProxyManager.State) (k : ProxyManager.Key) (v : Nat)
    (h : assocLookup s.loadedAudiobooks k = some v) :
    assocLookup (ProxyManager.run ops s).loadedAudiobooks k = some v ∧
    s.loadedAudiobooks.length ≤ (ProxyManager.run ops s).loadedAudiobooks.length ∧
    (ProxyManager.getAudiobookProxy k (ProxyManager.run ops s)).1 = v := by
  have hrun := ProxyManager.run_preserves_audiobooks ops s k v h
  refine ⟨hrun.1, hrun.2, ?_⟩
  simp [ProxyManager.getAudiobookProxy, hrun.1]

/-- Witness for C9: after the clear-and-miss run `c9Ops`, collection id 7 still
resolves to instance 0 and the collection sub-cache has not shrunk. -/
theorem audiobook_cache_never_cleared_witness :
    assocLookup (ProxyManager.run c9Ops c9State).loadedAudiobooks 7 = some 0 ∧
    c9State.loadedAudiobooks.length ≤
      (ProxyManager.run c9Ops c9State).loadedAudiobooks.length ∧
    (ProxyManager.getAudiobookProxy 7 (ProxyManager.run c9Ops c9State)).1 = 0 :=
  audiobook_cache_never_cleared c9Ops c9State 7 0 (by decide)

namespace Core.ScanPlayer

/-- C1 (code bug evidence): for a queue entry whose probe succeeds (the media
plays and the backend reports duration 5000), `performScan` does **not**
persist the reported duration — the condition at ScanPlayer.cpp:98 persists
only when the duration equals -1 — so the sidecar stays empty, the file still
reads as unscanned (-1), and the `performScan() failed for` warning is logged
for the successful probe.  The worker does stop the engine, pop the entry and
finish the queue (mutex released). -/
theorem performScan_success_not_persisted :
    (performScan c1Env c1State).sidecar = [] ∧
    getMediaDurationAt (performScan c1Env c1State).sidecar 0 = -1 ∧
    (performScan c1Env c1State).scanFailedLog = [0] ∧
    (performScan c1Env c1State).fileQueue = [] ∧
    (performScan c1Env c1State).mutexLocked = false := by decide

/-- C6 (code bug evidence): when the head entry's file cannot be opened, the
worker logs the diagnostic but returns immediately: the failed entry is
**not** removed from the queue (nor are the entries behind it processed) and
the queue mutex is left locked, so no later `enqueueFile` could ever reach
it — whereas the claim says the entry is dropped and only a diagnostic
remains.  The sidecar is untouched (the entry still reads as unscanned). -/
theorem performScan_openFail_keeps_entry :
    (performScan c6Env c6State).fileQueue = [0, 1] ∧
    (performScan c6Env c6State).mutexLocked = true ∧
    (performScan c6Env c6State).qfileFailedLog = [0] ∧
    getMediaDurationAt (performScan c6Env c6State).sidecar 0 = -1 := by decide

/-- C5 counterexample: on a collection whose only child (path 0) already has a
positive persisted duration (5000 ms), `addAudiobook` still pushes it onto the
scan queue — the claim says only the still-unscanned children (duration ≤ 0)
are pushed, i.e. none here. -/
theorem addAudiobook_enqueues_scanned_counterexample :
    0 < getMediaDurationAt c5State.sidecar 0 ∧
    (addAudiobook [0] c5State).fileQueue = [0] := by decide

/-- C5 amended: `enqueueCollection` (`addAudiobook`) pushes **all** child
records of the collection onto the FIFO queue, with no filter on their scan
state; only `enqueueFile` (`addAudiobookFile`) checks the duration — it is a
no-op when the record's duration is already positive and pushes the single
record otherwise. -/
theorem addAudiobook_pushes_all_children (s : ScanState) (children : List PathKey)
    (p : PathKey) :
    (addAudiobook children s).fileQueue = s.fileQueue ++ children ∧
    (0 < getMediaDurationAt s.sidecar p → addAudiobookFile p s = s) ∧
    (¬ 0 < getMediaDurationAt s.sidecar p →
      (addAudiobookFile p s).fileQueue = s.fileQueue ++ [p]) := by
  refine ⟨rfl, fun h => ?_, fun h => ?_⟩
  · simp [addAudiobookFile, h]
  · simp [addAudiobookFile, h]

/-- Witness for the amended C5: the scanned file (path 0, duration 5000) is
pushed by `addAudiobook` but `addAudiobookFile` leaves the state unchanged. -/
theorem addAudiobook_pushes_all_children_witness :
    (addAudiobook [0] c5State).fileQueue = c5State.fileQueue ++ [0] ∧
    addAudiobookFile 0 c5State = c5State :=
  ⟨(addAudiobook_pushes_all_children c5State [0] 0).1,
    (addAudiobook_pushes_all_children c5State [0] 0).2.1 (by decide)⟩

end Core.ScanPlayer

namespace Core.ConcretePlayer

/-- C10: `releaseMedia`'s only state change is clearing `mediaLoaded`; it
performs no backend call at all — in particular `libvlc_media_release` is
never reached, because the flag is tested after it was already cleared — and
a subsequent `loadMedia` is always accepted by the already-loaded guard: it
loads the new path and sets `mediaLoaded` back to true. -/
theorem releaseMedia_only_clears_flag (s : State) (p : PathKey) :
    releaseMedia s = ({ s with mediaLoaded := false }, []) ∧
    (loadMedia p (releaseMedia s).1).1.mediaLoaded = true ∧
    (loadMedia p (releaseMedia s).1).1.currentPath = some p ∧
    (loadMedia p (releaseMedia s).1).1.mediaItem = some p := by
  refine ⟨rfl, ?_, ?_, ?_⟩ <;>
    · cases hb : s.autoPlay <;> simp [releaseMedia, loadMedia, play, hb]

end Core.ConcretePlayer
